import Mathlib

/-!
Shallow embedding of the Templater application's core (src/main.py):
the Template data model with its JSON codec (`Template.to_dict`,
`Template.from_dict`), persistence (`load_templates`, `save_templates`),
search (`update_template_list`) and the create/edit store operations
(`create_template`, `edit_template`).

Python values that can result from `json.load` are modelled by `PyValue`;
Python runtime exceptions relevant to these code paths are modelled by
`PyError`, and a fallible Python expression is modelled as
`Except PyError α`.  The backing file's observable content is modelled by
`FileContent` (missing file / content that is not valid JSON / a parsed
JSON value), which matches exactly the three branches distinguished by
`load_templates` via `FileNotFoundError` and `json.JSONDecodeError`.
-/

/-- Python runtime exceptions raised by the modelled code paths. -/
inductive PyError where
  | keyError
  | typeError
  | indexError
  | attributeError
  deriving DecidableEq, Repr

/-- Python values as produced by `json.load`: JSON objects become dicts
(insertion-ordered association lists), arrays become lists, strings become
`str`, integer numbers become `int`, booleans become `bool`, `null` becomes
`none`.  (Float literals are not needed by any modelled input.) -/
inductive PyValue where
  | str (s : String)
  | int (n : Int)
  | bool (b : Bool)
  | none
  | list (xs : List PyValue)
  | dict (entries : List (String × PyValue))

/-- The `Template` class of src/main.py (line 13): a single `description`
attribute.  The constructor performs no validation, so the attribute holds
whatever Python value it is given (`from_dict` does not check that the
value is a string). -/
structure Template where
  description : PyValue

/-- Python subscripting `v[key]` with a string key, as used by
`Template.from_dict` (line 22): succeeds on a dict containing the key,
raises `KeyError` on a dict lacking it, raises `TypeError` on every
non-dict value. -/
def pySubscript (v : PyValue) (key : String) : Except PyError PyValue :=
  match v with
  | .dict entries =>
      match entries.lookup key with
      | some w => .ok w
      | Option.none => .error .keyError
  | _ => .error .typeError

/-- Line 17, `Template.to_dict`: returns the dict
`\x7b"description": self.description\x7d`. -/
def Template.to_dict (t : Template) : PyValue :=
  .dict [("description", t.description)]

/-- Lines 20-22, `Template.from_dict`: returns `cls(data["description"])`.
No type check on the looked-up value; failure is that of the subscript. -/
def Template.from_dict (data : PyValue) : Except PyError Template :=
  match pySubscript data "description" with
  | .ok v => .ok ⟨v⟩
  | .error e => .error e

/-- Python iteration `for t in data` over a `json.load` result: a list
yields its elements, a dict yields its keys (as strings, in insertion
order), a string yields its one-character substrings, and every other
value raises `TypeError` (not iterable). -/
def pyIter (v : PyValue) : Except PyError (List PyValue) :=
  match v with
  | .list xs => .ok xs
  | .dict entries => .ok (entries.map (fun e => .str e.1))
  | .str s => .ok (s.data.map (fun c => .str (String.mk [c])))
  | _ => .error .typeError

/-- The list comprehension `[Template.from_dict(t) for t in data]`
(line 126) applied to the already-iterated elements: decodes elements left
to right, and the first exception raised by `from_dict` propagates. -/
def decodeAll : List PyValue → Except PyError (List Template)
  | [] => .ok []
  | v :: rest =>
      match Template.from_dict v with
      | .ok t =>
          match decodeAll rest with
          | .ok ts => .ok (t :: ts)
          | .error e => .error e
      | .error e => .error e

/-- Observable content of the backing file `templates.json`, matching the
three cases `load_templates` distinguishes: the file does not exist
(`FileNotFoundError`), its content is not valid JSON
(`json.JSONDecodeError`), or it parses to a JSON value. -/
inductive FileContent where
  | missing
  | invalidJSON
  | json (v : PyValue)

/-- Lines 119-136, `TemplaterApp.load_templates`: opens the file and
decodes.  `FileNotFoundError` and `json.JSONDecodeError` are caught and
produce the empty list; any other exception (a `TypeError` or `KeyError`
escaping the comprehension) propagates uncaught, which the `.error`
result models. -/
def load_templates (file : FileContent) : Except PyError (List Template) :=
  match file with
  | .missing => .ok []
  | .invalidJSON => .ok []
  | .json v =>
      match pyIter v with
      | .ok items => decodeAll items
      | .error e => .error e

/-- Lines 138-145, `TemplaterApp.save_templates`: the JSON value written
to the file, `[t.to_dict() for t in self.templates]`.  (`json.dump` of
this value is deterministic, so the value determines the bytes.) -/
def save_templates (templates : List Template) : PyValue :=
  .list (templates.map Template.to_dict)

/-- The in-memory collection together with the backing file, for stating
properties of `save()` as a state transition. -/
structure StoreState where
  templates : List Template
  file : FileContent

/-- Calling `save_templates` on a state: overwrites the backing file in
full with the serialization of the current collection; the collection is
untouched. -/
def saveOp (s : StoreState) : StoreState :=
  { s with file := .json (save_templates s.templates) }

/-- Whitespace for Python's `str.strip()` with no argument, restricted to
the ASCII whitespace characters: space, tab, newline, carriage return,
vertical tab, form feed. -/
def isPySpace (c : Char) : Bool :=
  c = ' ' || c = '\t' || c = '\n' || c = '\r' || c = '\x0b' || c = '\x0c'

/-- Python `str.strip()`: removes leading and trailing whitespace.  Used
by `TemplateInputDialog.apply` (line 41) on the dialog's text content. -/
def pyStrip (s : String) : String :=
  ⟨((s.data.dropWhile isPySpace).reverse.dropWhile isPySpace).reverse⟩

/-- Python `str.lower()` restricted to ASCII: maps each character in
`A`-`Z` to its lowercase counterpart and leaves every other character
unchanged. -/
def strLower (s : String) : String :=
  ⟨s.data.map Char.toLower⟩

/-- Whether `needle` occurs at the start of `hay` (character lists). -/
def listStarts : List Char → List Char → Bool
  | [], _ => true
  | _ :: _, [] => false
  | a :: as, b :: bs => (a == b) && listStarts as bs

/-- Python's substring test `needle in hay` on character lists: `needle`
occurs contiguously somewhere in `hay` (the empty needle always does). -/
def listContains (needle : List Char) : List Char → Bool
  | [] => listStarts needle []
  | b :: bs => listStarts needle (b :: bs) || listContains needle bs

/-- Python `.lower()` as an attribute access: succeeds on a string value,
raises `AttributeError` on any other value. -/
def pyLower (v : PyValue) : Except PyError String :=
  match v with
  | .str s => .ok (strLower s)
  | _ => .error .attributeError

/-- Elements of a list paired with their positions, starting at `i`;
models the positions templates occupy in `self.templates` as the loop of
`update_template_list` walks them. -/
def enumerate (i : Nat) : List Template → List (Nat × Template)
  | [] => []
  | t :: rest => (i, t) :: enumerate (i + 1) rest

/-- The loop body of `update_template_list` over the enumerated
collection: keeps, in order, the entries for which
`query is None or query.lower() in template.description.lower()` holds;
`.lower()` on a non-string description raises. -/
def filterTemplates (query : Option String) :
    List (Nat × Template) → Except PyError (List (Nat × Template))
  | [] => .ok []
  | it :: rest =>
      match query with
      | Option.none =>
          match filterTemplates query rest with
          | .ok tail => .ok (it :: tail)
          | .error e => .error e
      | some q =>
          match pyLower it.2.description with
          | .ok dl =>
              (match filterTemplates query rest with
              | .ok tail =>
                  .ok (if listContains (strLower q).data dl.data
                       then it :: tail else tail)
              | .error e => .error e)
          | .error e => .error e

/-- Lines 147-155, `TemplaterApp.update_template_list`: the search
operation.  The code walks `self.templates` in order and shows each
template whose description contains `query` case-insensitively (all of
them when `query` is `None`); the result here records each kept template
with its original position in the collection. -/
def update_template_list (templates : List Template) (query : Option String) :
    Except PyError (List (Nat × Template)) :=
  filterTemplates query (enumerate 0 templates)

/-- Lines 157-171 together with `TemplateInputDialog.apply` (line 41),
`TemplaterApp.create_template` on a submitted dialog text: `dialog.result`
is the stripped text; when it is truthy (non-empty) a new `Template` is
appended and `save_templates` runs, otherwise nothing happens.  The `Bool`
records whether `save_templates` was called. -/
def create_template (templates : List Template) (rawText : String) :
    List Template × Bool :=
  let result := pyStrip rawText
  if result = "" then (templates, false)
  else (templates ++ [⟨.str result⟩], true)

/-- Python list index resolution for `xs[i]`: a non-negative `i` must be
below the length; a negative `i` addresses position `len + i` and must
not fall below zero.  `none` models an `IndexError`. -/
def pyIndex (len : Nat) (i : Int) : Option Nat :=
  if 0 ≤ i then
    (if i < (len : Int) then some i.toNat else Option.none)
  else
    (if 0 ≤ (len : Int) + i then some ((len : Int) + i).toNat else Option.none)

/-- Python `xs[i]` on a list. -/
def pyListGet (xs : List Template) (i : Int) : Except PyError Template :=
  match pyIndex xs.length i with
  | some n =>
      match xs[n]? with
      | some t => .ok t
      | Option.none => .error .indexError
  | Option.none => .error .indexError

/-- Mutation of the object at Python index `i` (the aliased
`template.description = dialog.result` write at line 183, seen as a
replacement at the resolved position). -/
def pyListSet (xs : List Template) (i : Int) (t : Template) :
    Except PyError (List Template) :=
  match pyIndex xs.length i with
  | some n => .ok (xs.set n t)
  | Option.none => .error .indexError

/-- Lines 173-191 together with `TemplateInputDialog.apply` (line 41),
`TemplaterApp.edit_template` with a selected index and a submitted dialog
text.  The code fetches `self.templates[index]` (line 179) before its
`try` block, so an `IndexError` there escapes uncaught; then, when the
stripped text is truthy, the fetched template's description is replaced
in place and `save_templates` runs, otherwise nothing happens.  The `Bool`
records whether `save_templates` was called. -/
def edit_template (templates : List Template) (index : Int) (rawText : String) :
    Except PyError (List Template × Bool) :=
  match pyListGet templates index with
  | .error e => .error e
  | .ok _ =>
      let result := pyStrip rawText
      if result = "" then .ok (templates, false)
      else
        match pyListSet templates index ⟨.str result⟩ with
        | .ok ts => .ok (ts, true)
        | .error e => .error e

-- helper lemmas

theorem decodeAll_map_to_dict (ts : List Template) :
    decodeAll (ts.map Template.to_dict) = .ok ts := by
  induction ts with
  | nil => rfl
  | cons t rest ih =>
      simp only [List.map_cons, decodeAll, Template.from_dict, Template.to_dict,
        pySubscript, List.lookup, ih]
      rfl

theorem decodeAll_append_error (pre : List PyValue) (ts : List Template)
    (bad : PyValue) (post : List PyValue) (e : PyError)
    (hpre : decodeAll pre = .ok ts) (hbad : Template.from_dict bad = .error e) :
    decodeAll (pre ++ bad :: post) = .error e := by
  induction pre generalizing ts with
  | nil => simp [decodeAll, hbad]
  | cons v rest ih =>
      simp only [decodeAll] at hpre ⊢
      cases hv : Template.from_dict v with
      | error e' => simp [hv] at hpre
      | ok t =>
          simp only [hv] at hpre ⊢
          cases hr : decodeAll rest with
          | error e' => simp [hr] at hpre
          | ok ts' => rw [List.append_eq, ih ts' hr]

-- C7
/-- C7: when the backing file does not exist, load initializes the collection
to empty and raises no error. -/
theorem load_missing_file_gives_empty : load_templates .missing = .ok [] := rfl

-- C8
/-- C8: when the backing file's content fails to parse as JSON, load falls
back to an empty collection and raises no uncaught error. -/
theorem load_invalid_json_gives_empty : load_templates .invalidJSON = .ok [] := rfl

-- C1 counterexample
/-- C1 counterexample: on the file containing the valid JSON
`\x7b"not": "an array"\x7d`, and on an array whose element lacks a
"description" key, load raises an uncaught error instead of producing an
empty collection without error. -/
theorem load_bad_record_raises :
    load_templates (.json (.dict [("not", .str "an array")])) = .error .typeError ∧
    load_templates (.json (.list [.dict [("x", .str "y")]])) = .error .keyError :=
  ⟨rfl, rfl⟩

-- C1 amended
/-- C1 amended: load falls back to empty without error when the content is
not valid JSON, but when the content is valid JSON containing a record that
fails codec validation, the decoding error propagates uncaught. -/
theorem load_fallback_and_bad_record (pre : List PyValue) (ts : List Template)
    (bad : PyValue) (post : List PyValue) (e : PyError)
    (hpre : decodeAll pre = .ok ts) (hbad : Template.from_dict bad = .error e) :
    load_templates .invalidJSON = .ok [] ∧
    load_templates (.json (.list (pre ++ bad :: post))) = .error e := by
  refine ⟨rfl, ?_⟩
  simp only [load_templates, pyIter]
  exact decodeAll_append_error pre ts bad post e hpre hbad

theorem load_fallback_and_bad_record_witness :
    decodeAll [] = .ok [] ∧
    Template.from_dict (.dict [("x", .str "y")]) = .error .keyError ∧
    (load_templates .invalidJSON = .ok ([] : List Template) ∧
     load_templates (.json (.list ([] ++ .dict [("x", .str "y")] :: []))) = .error .keyError) :=
  ⟨rfl, rfl, load_fallback_and_bad_record [] [] _ [] _ rfl rfl⟩

-- C3 counterexample
/-- C3 counterexample: decode of `\x7b"description": 42\x7d`, whose value is a
number rather than a string, succeeds (returning a Template carrying 42)
instead of failing. -/
theorem from_dict_accepts_non_string :
    Template.from_dict (.dict [("description", .int 42)]) = .ok ⟨.int 42⟩ := rfl

-- C3 amended
/-- C3 amended: decode succeeds exactly when the record is a mapping
containing a "description" key, regardless of the value's type; a mapping
lacking the key fails with KeyError and a non-mapping fails with TypeError. -/
theorem from_dict_characterization :
    (∀ (entries : List (String × PyValue)) (v : PyValue),
        entries.lookup "description" = some v →
        Template.from_dict (.dict entries) = .ok ⟨v⟩) ∧
    (∀ entries : List (String × PyValue),
        entries.lookup "description" = Option.none →
        Template.from_dict (.dict entries) = .error .keyError) ∧
    (∀ v : PyValue, (∀ entries, v ≠ .dict entries) →
        Template.from_dict v = .error .typeError) := by
  refine ⟨?_, ?_, ?_⟩
  · intro entries v h
    simp [Template.from_dict, pySubscript, h]
  · intro entries h
    simp [Template.from_dict, pySubscript, h]
  · intro v h
    cases v with
    | dict entries => exact absurd rfl (h entries)
    | _ => rfl

theorem from_dict_characterization_witness :
    ([("description", PyValue.str "hi")].lookup "description" = some (.str "hi")) ∧
    Template.from_dict (.dict [("description", .str "hi")]) = .ok ⟨.str "hi"⟩ :=
  ⟨rfl, from_dict_characterization.1 [("description", .str "hi")] (.str "hi") rfl⟩

-- C6
/-- C6: add appends exactly one template carrying the trimmed description at
the end and saves when the trimmed description is non-empty; otherwise it is
a no-op and does not save. -/
theorem create_appends_or_rejects (ts : List Template) (raw : String) :
    (pyStrip raw ≠ "" →
        create_template ts raw = (ts ++ [⟨.str (pyStrip raw)⟩], true)) ∧
    (pyStrip raw = "" → create_template ts raw = (ts, false)) ∧
    create_template ts "" = (ts, false) ∧
    create_template ts "   " = (ts, false) := by
  refine ⟨?_, ?_, ?_, ?_⟩
  · intro h; simp [create_template, h]
  · intro h; simp [create_template, h]
  · rfl
  · simp [create_template, pyStrip, isPySpace]

theorem create_appends_or_rejects_witness :
    pyStrip "  hi  " ≠ "" ∧
    create_template [⟨.str "a"⟩] "  hi  " = ([⟨.str "a"⟩, ⟨.str "hi"⟩], true) := by
  refine ⟨?h, ?_⟩
  · decide
  · exact (create_appends_or_rejects [⟨.str "a"⟩] "  hi  ").1 (by decide)

-- C9
/-- C9: save is a deterministic function of the collection: saving twice with
no intervening mutation writes identical file content, and states with equal
collections produce equal file content. -/
theorem save_idempotent (s s' : StoreState) (h : s.templates = s'.templates) :
    (saveOp (saveOp s)).file = (saveOp s).file ∧
    (saveOp s).file = (saveOp s').file := by
  constructor <;> simp [saveOp, h]

theorem save_idempotent_witness :
    (saveOp (saveOp ⟨[⟨.str "a"⟩], .missing⟩)).file = (saveOp ⟨[⟨.str "a"⟩], .missing⟩).file :=
  (save_idempotent ⟨[⟨.str "a"⟩], .missing⟩ ⟨[⟨.str "a"⟩], .missing⟩ rfl).1

-- pyIndex helper lemmas

theorem pyIndex_big (len : Nat) (i : Int) (h : (len : Int) ≤ i) :
    pyIndex len i = Option.none := by
  simp only [pyIndex]
  rw [if_pos (by omega), if_neg (by omega)]

theorem pyIndex_small (len : Nat) (i : Int) (h : i < -(len : Int)) :
    pyIndex len i = Option.none := by
  simp only [pyIndex]
  rw [if_neg (by omega), if_neg (by omega)]

theorem pyIndex_nonneg (len : Nat) (i : Int) (h0 : 0 ≤ i) (h : i < (len : Int)) :
    pyIndex len i = some i.toNat ∧ i.toNat < len := by
  refine ⟨?_, by omega⟩
  simp only [pyIndex]
  rw [if_pos h0, if_pos h]

theorem pyIndex_neg (len : Nat) (i : Int) (h0 : -(len : Int) ≤ i) (h : i < 0) :
    pyIndex len i = some ((len : Int) + i).toNat ∧ ((len : Int) + i).toNat < len := by
  refine ⟨?_, by omega⟩
  simp only [pyIndex]
  rw [if_neg (by omega), if_pos (by omega)]

theorem edit_template_of_pyIndex_none (ts : List Template) (i : Int) (raw : String)
    (h : pyIndex ts.length i = Option.none) :
    edit_template ts i raw = .error .indexError := by
  simp [edit_template, pyListGet, h]

theorem edit_template_of_pyIndex_some (ts : List Template) (i : Int) (raw : String)
    (n : Nat) (h : pyIndex ts.length i = some n) (hn : n < ts.length) :
    edit_template ts i raw =
      (if pyStrip raw = "" then .ok (ts, false)
       else .ok (ts.set n ⟨.str (pyStrip raw)⟩, true)) := by
  simp only [edit_template, pyListGet, pyListSet, h, List.getElem?_eq_getElem hn]

-- C2 counterexample
/-- C2 counterexample: on the one-template collection ["a"],
update(-1, "x") edits the last template (Python negative indexing) rather
than being a no-op, and update(1, "x") raises an uncaught IndexError. -/
theorem edit_bad_index_not_noop :
    edit_template [⟨.str "a"⟩] (-1) "x" = .ok ([⟨.str "x"⟩], true) ∧
    (Template.mk (.str "x") ≠ Template.mk (.str "a")) ∧
    edit_template [⟨.str "a"⟩] 1 "x" = .error .indexError := by
  refine ⟨rfl, ?_, rfl⟩
  intro h
  injection h with h1
  injection h1 with h2
  exact absurd h2 (by decide)

-- C2 amended
/-- C2 amended: update with a whitespace-only description and a resolvable
index is a no-op without error; but an out-of-range index is not rejected:
update(i, d) with i at or above the size, or below the negation of the size,
raises an uncaught IndexError, while an in-range negative i resolves to
position size + i (so update(-1, d) edits the last template). -/
theorem edit_whitespace_noop_and_index_behavior
    (ts : List Template) (i : Int) (raw : String) :
    (pyStrip raw = "" → (∃ t, pyListGet ts i = .ok t) →
        edit_template ts i raw = .ok (ts, false)) ∧
    ((ts.length : Int) ≤ i → edit_template ts i raw = .error .indexError) ∧
    (i < -(ts.length : Int) → edit_template ts i raw = .error .indexError) ∧
    (0 ≤ i → i < (ts.length : Int) → pyStrip raw ≠ "" →
        edit_template ts i raw = .ok (ts.set i.toNat ⟨.str (pyStrip raw)⟩, true)) ∧
    (-(ts.length : Int) ≤ i → i < 0 → pyStrip raw ≠ "" →
        edit_template ts i raw =
          .ok (ts.set ((ts.length : Int) + i).toNat ⟨.str (pyStrip raw)⟩, true)) := by
  refine ⟨?_, ?_, ?_, ?_, ?_⟩
  · rintro hr ⟨t, ht⟩
    simp [edit_template, ht, hr]
  · intro h
    exact edit_template_of_pyIndex_none ts i raw (pyIndex_big ts.length i h)
  · intro h
    exact edit_template_of_pyIndex_none ts i raw (pyIndex_small ts.length i h)
  · intro h0 h hr
    obtain ⟨hsome, hlt⟩ := pyIndex_nonneg ts.length i h0 h
    rw [edit_template_of_pyIndex_some ts i raw _ hsome hlt, if_neg hr]
  · intro h0 h hr
    obtain ⟨hsome, hlt⟩ := pyIndex_neg ts.length i h0 h
    rw [edit_template_of_pyIndex_some ts i raw _ hsome hlt, if_neg hr]

theorem edit_whitespace_noop_witness :
    pyStrip "  " = "" ∧
    pyListGet [⟨.str "a"⟩] 0 = .ok ⟨.str "a"⟩ ∧
    edit_template [⟨.str "a"⟩] 0 "  " = .ok ([⟨.str "a"⟩], false) :=
  ⟨by decide, rfl,
    (edit_whitespace_noop_and_index_behavior [⟨.str "a"⟩] 0 "  ").1 (by decide)
      ⟨⟨.str "a"⟩, rfl⟩⟩

-- C10
/-- C10 frame property: a successful update at a valid non-negative index
replaces only that position's template, preserving the length and every
other position; add leaves every pre-existing position unchanged and only
appends one template at the end. -/
theorem edit_and_create_frame (ts : List Template) (i : Nat) (raw : String)
    (hi : i < ts.length) (hr : pyStrip raw ≠ "") :
    (edit_template ts (i : Int) raw =
        .ok (ts.set i ⟨.str (pyStrip raw)⟩, true) ∧
      (ts.set i ⟨.str (pyStrip raw)⟩).length = ts.length ∧
      (ts.set i ⟨.str (pyStrip raw)⟩)[i]? = some ⟨.str (pyStrip raw)⟩ ∧
      (∀ j, j ≠ i → (ts.set i ⟨.str (pyStrip raw)⟩)[j]? = ts[j]?)) ∧
    ((create_template ts raw).1 = ts ++ [⟨.str (pyStrip raw)⟩] ∧
      (∀ j, j < ts.length → (create_template ts raw).1[j]? = ts[j]?)) := by
  have hcast : ((i : Int)).toNat = i := Int.toNat_natCast i
  refine ⟨⟨?_, List.length_set ts i _, ?_, ?_⟩, ?_, ?_⟩
  · have := (edit_whitespace_noop_and_index_behavior ts (i : Int) raw).2.2.2.1
      (Int.natCast_nonneg i) (by exact_mod_cast hi) hr
    rwa [hcast] at this
  · simp [List.getElem?_set_self, hi]
  · intro j hj
    exact List.getElem?_set_ne (fun h => hj h.symm)
  · simp [create_template, hr]
  · intro j hj
    simp only [create_template, if_neg hr]
    rw [List.getElem?_append]
    simp [hj]

theorem edit_and_create_frame_witness :
    (0 < ([⟨.str "a"⟩, ⟨.str "b"⟩] : List Template).length ∧ pyStrip "x" ≠ "") ∧
    edit_template [⟨.str "a"⟩, ⟨.str "b"⟩] 0 "x" = .ok ([⟨.str "x"⟩, ⟨.str "b"⟩], true) ∧
    (create_template [⟨.str "a"⟩, ⟨.str "b"⟩] "x").1
      = [⟨.str "a"⟩, ⟨.str "b"⟩] ++ [⟨.str "x"⟩] :=
  ⟨⟨by decide, by decide⟩,
    (edit_and_create_frame [⟨.str "a"⟩, ⟨.str "b"⟩] 0 "x" (by decide) (by decide)).1.1,
    (edit_and_create_frame [⟨.str "a"⟩, ⟨.str "b"⟩] 0 "x" (by decide) (by decide)).2.1⟩

-- C4
/-- C4 round-trip: decoding the encoding of a template with non-empty string
description returns the same template, and loading the file just written by
save reproduces the same ordered collection (hence the same ordered sequence
of descriptions). -/
theorem codec_and_persistence_roundtrip (t : Template) (ts : List Template)
    (_h1 : ∃ s, t.description = .str s ∧ s ≠ "")
    (_h2 : ∀ u ∈ ts, ∃ s, u.description = .str s ∧ s ≠ "") :
    Template.from_dict (Template.to_dict t) = .ok t ∧
    load_templates (.json (save_templates ts)) = .ok ts := by
  constructor
  · simp [Template.from_dict, Template.to_dict, pySubscript, List.lookup]
  · simp only [load_templates, save_templates, pyIter, decodeAll_map_to_dict]

theorem codec_and_persistence_roundtrip_witness :
    ((∃ s, (Template.mk (.str "hi")).description = .str s ∧ s ≠ "") ∧
     (∀ u ∈ ([⟨.str "a"⟩, ⟨.str "b"⟩] : List Template),
        ∃ s, u.description = .str s ∧ s ≠ "")) ∧
    Template.from_dict (Template.to_dict ⟨.str "hi"⟩) = .ok ⟨.str "hi"⟩ ∧
    load_templates (.json (save_templates [⟨.str "a"⟩, ⟨.str "b"⟩]))
      = .ok [⟨.str "a"⟩, ⟨.str "b"⟩] := by
  have hw1 : ∃ s, (Template.mk (.str "hi")).description = .str s ∧ s ≠ "" :=
    ⟨"hi", rfl, by decide⟩
  have hw2 : ∀ u ∈ ([⟨.str "a"⟩, ⟨.str "b"⟩] : List Template),
      ∃ s, u.description = .str s ∧ s ≠ "" := by
    intro u hu
    simp only [List.mem_cons, List.not_mem_nil, or_false] at hu
    rcases hu with h | h
    · exact ⟨"a", by rw [h], by decide⟩
    · exact ⟨"b", by rw [h], by decide⟩
  exact ⟨⟨hw1, hw2⟩, codec_and_persistence_roundtrip ⟨.str "hi"⟩ _ hw1 hw2⟩

-- C5 infrastructure

/-- The search predicate in the spec's words: the template's description
contains the query as a case-insensitive substring. -/
def specContainsCI (q : String) (t : Template) : Bool :=
  match t.description with
  | .str s => listContains (strLower q).data (strLower s).data
  | _ => false

theorem filterTemplates_query_none (l : List (Nat × Template)) :
    filterTemplates Option.none l = .ok l := by
  induction l with
  | nil => rfl
  | cons it rest ih => simp [filterTemplates, ih]

theorem filterTemplates_query_some (q : String) (l : List (Nat × Template))
    (h : ∀ it ∈ l, ∃ s, (it.2 : Template).description = .str s) :
    filterTemplates (some q) l = .ok (l.filter (fun it => specContainsCI q it.2)) := by
  induction l with
  | nil => rfl
  | cons it rest ih =>
      obtain ⟨s, hs⟩ := h it (by simp)
      have ihr := ih (fun x hx => h x (by simp [hx]))
      simp only [filterTemplates, hs, pyLower, ihr, List.filter_cons, specContainsCI]

theorem enumerate_snd_mem (l : List Template) (i : Nat) (it : Nat × Template)
    (h : it ∈ enumerate i l) : it.2 ∈ l := by
  induction l generalizing i with
  | nil => cases h
  | cons t rest ih =>
      simp only [enumerate, List.mem_cons] at h
      rcases h with h | h
      · subst h; simp
      · exact List.mem_cons_of_mem t (ih (i + 1) h)

-- C5
/-- C5: search yields exactly the (index, template) pairs whose description
contains the query as a case-insensitive substring, in original order; a
missing query yields all templates unfiltered; and the spec's concrete
example behaves as stated. -/
theorem search_case_insensitive_filter (ts : List Template) (q : String)
    (h : ∀ t ∈ ts, ∃ s, t.description = .str s) :
    update_template_list ts Option.none = .ok (enumerate 0 ts) ∧
    update_template_list ts (some q)
      = .ok ((enumerate 0 ts).filter (fun it => specContainsCI q it.2)) ∧
    update_template_list [⟨.str "Buy milk"⟩, ⟨.str "BUY bread"⟩, ⟨.str "Call mom"⟩]
        (some "buy")
      = .ok [(0, ⟨.str "Buy milk"⟩), (1, ⟨.str "BUY bread"⟩)] ∧
    update_template_list [⟨.str "Buy milk"⟩, ⟨.str "BUY bread"⟩, ⟨.str "Call mom"⟩]
        Option.none
      = .ok [(0, ⟨.str "Buy milk"⟩), (1, ⟨.str "BUY bread"⟩), (2, ⟨.str "Call mom"⟩)] ∧
    update_template_list [⟨.str "Buy milk"⟩, ⟨.str "BUY bread"⟩, ⟨.str "Call mom"⟩]
        (some "xyz")
      = .ok [] := by
  refine ⟨?_, ?_, rfl, rfl, rfl⟩
  · exact filterTemplates_query_none (enumerate 0 ts)
  · refine filterTemplates_query_some q (enumerate 0 ts) ?_
    intro it hit
    exact h it.2 (enumerate_snd_mem ts 0 it hit)

theorem search_case_insensitive_filter_witness :
    (∀ t ∈ ([⟨.str "Buy milk"⟩] : List Template), ∃ s, t.description = .str s) ∧
    update_template_list [⟨.str "Buy milk"⟩] (some "buy")
      = .ok ((enumerate 0 [⟨.str "Buy milk"⟩]).filter
          (fun it => specContainsCI "buy" it.2)) := by
  have hw : ∀ t ∈ ([⟨.str "Buy milk"⟩] : List Template), ∃ s, t.description = .str s := by
    intro t ht
    simp only [List.mem_cons, List.not_mem_nil, or_false] at ht
    exact ⟨"Buy milk", by rw [ht]⟩
  exact ⟨hw, (search_case_insensitive_filter [⟨.str "Buy milk"⟩] "buy" hw).2.1⟩
